import Mathlib

/-!
Shallow embedding of `scripts/compare_bundles.py` (the rule-based bundle
comparison engine) and proofs about it.

Modelling conventions:
- Decoded JSON documents are values of the inductive type `JVal`
  (numbers are modelled as integers; none of the verified properties
  depend on fractional numerics).
- Python dictionary/attribute operations that can raise (`d[k]`, `x.get`,
  `x.keys()`, `len(x)`, `"k" in x`) are modelled in the `Except String`
  monad, mirroring that an uncaught exception inside a comparator is
  caught by `_compare_file` and recorded as an `error`-mode difference.
- Python equality `==` on decoded values is modelled as structural
  equality of `JVal`; theorems whose transfer to Python would be affected
  by Python's numeric cross-type equalities (`True == 1`) carry
  hypotheses restricting the compared fields to the types the spec names
  (e.g. boolean `exists` flags, string analyzer names).
- A file on disk is modelled as `FileContent`: its raw text together
  with the result of `json.loads` on that text (`none` = decode failure).
-/

namespace CompareBundles

/-- Decoded JSON value, the result of a successful `json.loads`. -/
inductive JVal where
  | null : JVal
  | bool : Bool → JVal
  | num : Int → JVal
  | str : String → JVal
  | arr : List JVal → JVal
  | obj : List (String × JVal) → JVal

mutual

/-- Structural (boolean) equality of JSON values. -/
def beqJ : JVal → JVal → Bool
  | .null, .null => true
  | .bool a, .bool b => a == b
  | .num a, .num b => a == b
  | .str a, .str b => a == b
  | .arr a, .arr b => beqJList a b
  | .obj a, .obj b => beqJObj a b
  | _, _ => false

/-- Elementwise equality of JSON arrays. -/
def beqJList : List JVal → List JVal → Bool
  | [], [] => true
  | x :: xs, y :: ys => beqJ x y && beqJList xs ys
  | _, _ => false

/-- Entrywise equality of JSON object entry lists. -/
def beqJObj : List (String × JVal) → List (String × JVal) → Bool
  | [], [] => true
  | (k, v) :: xs, (k', v') :: ys => k == k' && beqJ v v' && beqJObj xs ys
  | _, _ => false

end

mutual

theorem beqJ_iff : ∀ (a b : JVal), beqJ a b = true ↔ a = b
  | .null, .null => by simp [beqJ]
  | .bool a, .bool b => by simp [beqJ]
  | .num a, .num b => by simp [beqJ]
  | .str a, .str b => by simp [beqJ]
  | .arr a, .arr b => by simp [beqJ, beqJList_iff a b]
  | .obj a, .obj b => by simp [beqJ, beqJObj_iff a b]
  | .null, .bool _ | .null, .num _ | .null, .str _ | .null, .arr _ | .null, .obj _
  | .bool _, .null | .bool _, .num _ | .bool _, .str _ | .bool _, .arr _ | .bool _, .obj _
  | .num _, .null | .num _, .bool _ | .num _, .str _ | .num _, .arr _ | .num _, .obj _
  | .str _, .null | .str _, .bool _ | .str _, .num _ | .str _, .arr _ | .str _, .obj _
  | .arr _, .null | .arr _, .bool _ | .arr _, .num _ | .arr _, .str _ | .arr _, .obj _
  | .obj _, .null | .obj _, .bool _ | .obj _, .num _ | .obj _, .str _ | .obj _, .arr _ => by
    simp [beqJ]

theorem beqJList_iff : ∀ (a b : List JVal), beqJList a b = true ↔ a = b
  | [], [] => by simp [beqJList]
  | x :: xs, y :: ys => by
    simp [beqJList, beqJ_iff x y, beqJList_iff xs ys]
  | [], _ :: _ => by simp [beqJList]
  | _ :: _, [] => by simp [beqJList]

theorem beqJObj_iff : ∀ (a b : List (String × JVal)), beqJObj a b = true ↔ a = b
  | [], [] => by simp [beqJObj]
  | (k, v) :: xs, (k', v') :: ys => by
    simp [beqJObj, beqJ_iff v v', beqJObj_iff xs ys, Prod.ext_iff]
  | [], _ :: _ => by simp [beqJObj]
  | _ :: _, [] => by simp [beqJObj]

end

instance : DecidableEq JVal := fun a b => decidable_of_iff _ (beqJ_iff a b)

instance : BEq JVal := ⟨beqJ⟩

instance : LawfulBEq JVal where
  eq_of_beq h := (beqJ_iff _ _).mp h
  rfl := by
    intro a
    exact (beqJ_iff a a).mpr rfl

/-- Python truthiness of a decoded JSON value (`if x:`). -/
def truthy : JVal → Bool
  | .null => false
  | .bool b => b
  | .num n => n != 0
  | .str s => s != ""
  | .arr l => !l.isEmpty
  | .obj m => !m.isEmpty

/-- Whether the value is a JSON object (a Python `dict`). -/
def isObj : JVal → Bool
  | .obj _ => true
  | _ => false

/-- Whether the value is a JSON array (a Python `list`). -/
def isArr : JVal → Bool
  | .arr _ => true
  | _ => false

/-- First-match association-list lookup; JSON objects decoded by
`json.loads` have distinct keys, so first-match and last-match agree. -/
def objLookup (k : String) : List (String × JVal) → Option JVal
  | [] => none
  | (k', v) :: rest => if k' = k then some v else objLookup k rest

/-- Python `x.get(k, d)`: only dictionaries have a `.get` attribute;
on any other value an `AttributeError` is raised. -/
def pyGet (v : JVal) (k : String) (d : JVal) : Except String JVal :=
  match v with
  | .obj m => .ok ((objLookup k m).getD d)
  | _ => .error "AttributeError: no attribute get"

/-- Whether the first character list is an initial segment of the second. -/
def startsWithChars : List Char → List Char → Bool
  | [], _ => true
  | _ :: _, [] => false
  | a :: as, b :: bs => a == b && startsWithChars as bs

/-- Whether the first character list occurs contiguously in the second
(Python's substring containment `needle in hay`). -/
def containsChars (needle : List Char) : List Char → Bool
  | [] => startsWithChars needle []
  | c :: t => startsWithChars needle (c :: t) || containsChars needle t

/-- Python `k in x` for a string key: key membership for dicts, substring
test for strings, element membership for lists, `TypeError` otherwise. -/
def pyIn (k : String) (v : JVal) : Except String Bool :=
  match v with
  | .obj m => .ok (decide ((objLookup k m).isSome))
  | .str s => .ok (containsChars k.data s.data)
  | .arr l => .ok (l.contains (.str k))
  | _ => .error "TypeError: argument not iterable"

/-- Python `x[k]` for a string key: dict indexing (`KeyError` when the key
is absent), `TypeError` on any non-dict value. -/
def pyIndexStr (v : JVal) (k : String) : Except String JVal :=
  match v with
  | .obj m =>
    match objLookup k m with
    | some x => .ok x
    | none => .error "KeyError"
  | _ => .error "TypeError: indices must be integers"

/-- Python `len(x)`: defined for strings, lists and dicts, `TypeError`
otherwise. -/
def pyLen (v : JVal) : Except String Nat :=
  match v with
  | .str s => .ok s.length
  | .arr l => .ok l.length
  | .obj m => .ok m.length
  | _ => .error "TypeError: object has no len"

/-- Python `x.keys()` (as a list, in insertion order): dicts only. -/
def pyKeys (v : JVal) : Except String (List String) :=
  match v with
  | .obj m => .ok (m.map Prod.fst)
  | _ => .error "AttributeError: no attribute keys"

/-- Python `set(a) == set(b)` for lists of strings. -/
def sameSetStr (a b : List String) : Bool :=
  a.all (b.contains ·) && b.all (a.contains ·)

/-- Python `set(a) == set(b)` for lists of JSON values (dict key views). -/
def sameSetJ (a b : List JVal) : Bool :=
  a.all (b.contains ·) && b.all (a.contains ·)

instance {ε α : Type} [DecidableEq ε] [DecidableEq α] : DecidableEq (Except ε α)
  | .error e, .error e' => decidable_of_iff (e = e') (by simp)
  | .error _, .ok _ => isFalse (by simp)
  | .ok _, .error _ => isFalse (by simp)
  | .ok a, .ok b => decidable_of_iff (a = b) (by simp)

/-- Scan for the closing `]` of a glob character class, returning the
class contents and the remainder of the pattern. -/
def findClose : List Char → Option (List Char × List Char)
  | [] => none
  | c :: r =>
    if c = ']' then some ([], r)
    else
      match findClose r with
      | some (a, b) => some (c :: a, b)
      | none => none

/-- Parse the head of a glob character class following `fnmatch.translate`:
a leading `!` negates, a `]` directly after (possibly after `!`) is a
literal member, and an unclosed class makes the `[` a literal character. -/
def splitClass (ps : List Char) : Option (Bool × List Char × List Char) :=
  match ps with
  | '!' :: ']' :: rest2 =>
    match findClose rest2 with
    | some (a, b) => some (true, ']' :: a, b)
    | none => none
  | '!' :: rest =>
    match findClose rest with
    | some (a, b) => some (true, a, b)
    | none => none
  | ']' :: rest2 =>
    match findClose rest2 with
    | some (a, b) => some (false, ']' :: a, b)
    | none => none
  | _ =>
    match findClose ps with
    | some (a, b) => some (false, a, b)
    | none => none

/-- One token of a compiled glob pattern. -/
inductive GTok where
  | star : GTok
  | qmark : GTok
  | cls : Bool → List Char → GTok
  | lit : Char → GTok
deriving DecidableEq

/-- Fuel-indexed glob pattern compiler; every recursive call consumes at
least one pattern character, so `ps.length + 1` fuel always suffices. -/
def parseGlobF : Nat → List Char → List GTok
  | 0, _ => []
  | _ + 1, [] => []
  | fuel + 1, '*' :: rest => .star :: parseGlobF fuel rest
  | fuel + 1, '?' :: rest => .qmark :: parseGlobF fuel rest
  | fuel + 1, '[' :: rest =>
    (match splitClass rest with
     | some (neg, cls, rest') => .cls neg cls :: parseGlobF fuel rest'
     | none => .lit '[' :: parseGlobF fuel rest)
  | fuel + 1, c :: rest => .lit c :: parseGlobF fuel rest

/-- Compile a glob pattern into tokens (`*`, `?`, `[...]`, literal). -/
def parseGlob (ps : List Char) : List GTok :=
  parseGlobF (ps.length + 1) ps

/-- Whether a character is a member of a glob character class body,
honoring `a-b` ranges (an empty reversed range matches nothing, a
leading or trailing `-` is literal). -/
def matchClass (c : Char) : List Char → Bool
  | [] => false
  | a :: '-' :: b :: rest =>
    (decide (a ≤ c) && decide (c ≤ b)) || matchClass c rest
  | a :: rest => (a == c) || matchClass c rest

/-- Fuel-indexed token matcher; every recursive call strictly decreases
`ts.length + s.length`, so that sum plus one fuel always suffices. -/
def matchToksF : Nat → List GTok → List Char → Bool
  | 0, _, _ => false
  | _ + 1, [], s => s.isEmpty
  | fuel + 1, .star :: ts, s =>
    matchToksF fuel ts s ||
      (match s with
       | [] => false
       | _ :: s' => matchToksF fuel (.star :: ts) s')
  | fuel + 1, .qmark :: ts, s =>
    (match s with
     | [] => false
     | _ :: s' => matchToksF fuel ts s')
  | fuel + 1, .cls neg body :: ts, s =>
    (match s with
     | [] => false
     | c :: s' => (matchClass c body != neg) && matchToksF fuel ts s')
  | fuel + 1, .lit p :: ts, s =>
    (match s with
     | [] => false
     | c :: s' => (p == c) && matchToksF fuel ts s')

/-- Match a compiled glob pattern against a character list; `*` matches
any sequence (shell-glob semantics as used by `fnmatch`, where `*` also
spans `/`). -/
def matchToks (ts : List GTok) (s : List Char) : Bool :=
  matchToksF (ts.length + s.length + 1) ts s

/-- Model of `fnmatch.fnmatch(name, pattern)` (POSIX case handling, so
equivalent to `fnmatchcase`). -/
def fnmatchStr (name pattern : String) : Bool :=
  matchToks (parseGlob pattern.data) name.data

/-- Split a character list on `/` separators. -/
def splitSlash : List Char → List (List Char)
  | [] => [[]]
  | c :: rest =>
    let r := splitSlash rest
    if c = '/' then [] :: r
    else
      match r with
      | h :: t => (c :: h) :: t
      | [] => [[c]]

/-- Final path component (the `Path.name` of a relative path). -/
def lastComponent (p : String) : String :=
  String.mk ((splitSlash p.data).getLastD [])

/-- Index of the last `.` in a character list, if any. -/
def rfindDot : List Char → Option Nat
  | [] => none
  | c :: rest =>
    match rfindDot rest with
    | some i => some (i + 1)
    | none => if c = '.' then some 0 else none

/-- Model of `pathlib.Path(p).suffix`: the extension of the final
component, empty when the final component has no dot in an interior
position. -/
def pathSuffix (p : String) : String :=
  let name := (splitSlash p.data).getLastD []
  match rfindDot name with
  | some i => if 0 < i ∧ i + 1 < name.length then String.mk (name.drop i) else ""
  | none => ""

/-- The optional-file allowlist of `BundleComparator.compare`: a missing
file is tolerated when its final component matches `*-previous.log`
(`PurePath.match` with a single-component relative pattern tests the
final component). -/
def isOptional (p : String) : Bool :=
  fnmatchStr (lastComponent p) "*-previous.log"

/-- A file in an extracted bundle: its raw text together with the result
of `json.loads` on that text (`none` models a `json.JSONDecodeError`). -/
structure FileContent where
  text : String
  json : Option JVal
deriving DecidableEq

/-- The rule set for one spec type: `exact_match` patterns and the
`structural_compare` pattern-to-comparator mapping in declared
(insertion) order. The `non_empty_default` flag of the YAML file is
never consulted by the classifier and is omitted. -/
structure RuleSet where
  exact_match : List String
  structural_compare : List (String × String)
deriving DecidableEq

/-- The built-in default rules of `BundleComparator._get_default_rules`. -/
def defaultRules : RuleSet :=
  { exact_match := ["static-data.txt/static-data", "version.yaml"]
    structural_compare :=
      [("postgres/*.json", "database_connection"),
       ("mysql/*.json", "database_connection"),
       ("mssql/*.json", "database_connection"),
       ("redis/*.json", "database_connection"),
       ("dns/debug.json", "dns_structure"),
       ("registry/*.json", "registry_exists"),
       ("http*.json", "http_status")] }

/-- The three comparison disciplines returned by
`BundleComparator._get_comparison_mode`. -/
inductive Mode where
  | exact : Mode
  | structural : Mode
  | nonEmpty : Mode
deriving DecidableEq

/-- `BundleComparator._get_comparison_mode`: exact-match patterns first
(glob match or literal string equality), then structural patterns in
declared order, else the non-empty default. -/
def getComparisonMode (rules : RuleSet) (relPath : String) : Mode :=
  if rules.exact_match.any (fun pat => fnmatchStr relPath pat || relPath == pat) then
    .exact
  else if rules.structural_compare.any (fun pc => fnmatchStr relPath pc.1) then
    .structural
  else
    .nonEmpty

/-- `BundleComparator._get_structural_comparator`: the comparator of the
first structural pattern matching the path, else `"unknown"`. -/
def getStructuralComparator (rules : RuleSet) (relPath : String) : String :=
  match rules.structural_compare.find? (fun pc => fnmatchStr relPath pc.1) with
  | some pc => pc.2
  | none => "unknown"

/-- `BundleComparator._compare_database_connection`: compares only the
`isConnected` field, absent treated as `False`. -/
def compareDatabaseConnection (baseline current : JVal) : Except String Bool :=
  match pyGet baseline "isConnected" (.bool false) with
  | .error e => .error e
  | .ok bConn =>
    match pyGet current "isConnected" (.bool false) with
    | .error e => .error e
    | .ok cConn => .ok (bConn == cConn)

/-- `BundleComparator._compare_dns_structure`: asserts on the current
document that `query.kubernetes.address` is truthy, `kubeDNSService` is
truthy, `kubeDNSPods` is truthy with non-zero length, and
`query.nonResolvableDomain.address` is falsy; the baseline document is
never consulted. -/
def compareDnsStructure (_baseline current : JVal) : Except String Bool :=
  match pyIn "query" current with
  | .error e => .error e
  | .ok false => .ok false
  | .ok true =>
    match pyIndexStr current "query" with
    | .error e => .error e
    | .ok q =>
      match pyIn "kubernetes" q with
      | .error e => .error e
      | .ok false => .ok false
      | .ok true =>
        match pyIndexStr q "kubernetes" with
        | .error e => .error e
        | .ok k =>
          match pyGet k "address" .null with
          | .error e => .error e
          | .ok addr =>
            if !truthy addr then .ok false
            else
              match pyGet current "kubeDNSService" .null with
              | .error e => .error e
              | .ok svc =>
                if !truthy svc then .ok false
                else
                  match pyGet current "kubeDNSPods" .null with
                  | .error e => .error e
                  | .ok pods =>
                    if !truthy pods then .ok false
                    else
                      match pyIndexStr current "kubeDNSPods" with
                      | .error e => .error e
                      | .ok pods2 =>
                        match pyLen pods2 with
                        | .error e => .error e
                        | .ok n =>
                          if n == 0 then .ok false
                          else
                            match pyGet current "query" (.obj []) with
                            | .error e => .error e
                            | .ok q2 =>
                              match pyGet q2 "nonResolvableDomain" (.obj []) with
                              | .error e => .error e
                              | .ok nrd =>
                                match pyGet nrd "address" .null with
                                | .error e => .error e
                                | .ok a => .ok (!truthy a)

/-- The per-image loop of `BundleComparator._compare_registry_exists`:
for each baseline image name, compare the `exists` field (absent treated
as `False`) of the two sides; the first differing image fails. -/
def registryImagesLoop (bImgs cImgs : JVal) : List String → Except String Bool
  | [] => .ok true
  | name :: rest =>
    match pyIndexStr bImgs name with
    | .error e => .error e
    | .ok bImg =>
      match pyGet bImg "exists" (.bool false) with
      | .error e => .error e
      | .ok bEx =>
        match pyIndexStr cImgs name with
        | .error e => .error e
        | .ok cImg =>
          match pyGet cImg "exists" (.bool false) with
          | .error e => .error e
          | .ok cEx =>
            if bEx != cEx then .ok false
            else registryImagesLoop bImgs cImgs rest

/-- `BundleComparator._compare_registry_exists`: the key sets under
`images` must coincide, and each shared image's `exists` flag (absent
treated as `False`) must be equal. -/
def compareRegistryExists (baseline current : JVal) : Except String Bool :=
  match pyGet baseline "images" (.obj []) with
  | .error e => .error e
  | .ok bImgs =>
    match pyGet current "images" (.obj []) with
    | .error e => .error e
    | .ok cImgs =>
      match pyKeys bImgs with
      | .error e => .error e
      | .ok bKeys =>
        match pyKeys cImgs with
        | .error e => .error e
        | .ok cKeys =>
          if !sameSetStr bKeys cKeys then .ok false
          else registryImagesLoop bImgs cImgs bKeys

/-- `BundleComparator._compare_http_status`: compares only
`response.status`, absent treated as `0`. -/
def compareHttpStatus (baseline current : JVal) : Except String Bool :=
  match pyGet baseline "response" (.obj []) with
  | .error e => .error e
  | .ok bResp =>
    match pyGet bResp "status" (.num 0) with
    | .error e => .error e
    | .ok bStatus =>
      match pyGet current "response" (.obj []) with
      | .error e => .error e
      | .ok cResp =>
        match pyGet cResp "status" (.num 0) with
        | .error e => .error e
        | .ok cStatus => .ok (bStatus == cStatus)

/-- `BundleComparator._compare_cluster_version`: compares only
`info.major` and `info.minor` (absent treated as `None`); build
metadata fields are ignored. -/
def compareClusterVersion (baseline current : JVal) : Except String Bool :=
  match pyGet baseline "info" (.obj []) with
  | .error e => .error e
  | .ok bInfo =>
    match pyGet current "info" (.obj []) with
    | .error e => .error e
    | .ok cInfo =>
      match pyGet bInfo "major" .null with
      | .error e => .error e
      | .ok bMajor =>
        match pyGet cInfo "major" .null with
        | .error e => .error e
        | .ok cMajor =>
          if bMajor != cMajor then .ok false
          else
            match pyGet bInfo "minor" .null with
            | .error e => .error e
            | .ok bMinor =>
              match pyGet cInfo "minor" .null with
              | .error e => .error e
              | .ok cMinor => .ok (bMinor == cMinor)

/-- Insert into a Python dict modelled as an association list: an
existing key keeps its position and gets the new value, a new key is
appended. -/
def dictInsert (d : List (JVal × JVal)) (k v : JVal) : List (JVal × JVal) :=
  if d.any (fun p => p.1 == k) then
    d.map (fun p => if p.1 == k then (k, v) else p)
  else
    d ++ [(k, v)]

/-- The dict comprehension of `_compare_analysis_results`:
`{item.get("name"): item.get("severity") for item in l if "name" in item}`.
Items whose `name` value is unhashable (a list or dict) raise a
`TypeError` when used as a dict key. -/
def buildAnalysisMap : List JVal → Except String (List (JVal × JVal))
  | [] => .ok []
  | item :: rest =>
    match pyIn "name" item with
    | .error e => .error e
    | .ok false => buildAnalysisMap rest
    | .ok true =>
      match pyGet item "name" .null with
      | .error e => .error e
      | .ok n =>
        match pyGet item "severity" .null with
        | .error e => .error e
        | .ok sev =>
          if isArr n || isObj n then .error "TypeError: unhashable type"
          else
            match buildAnalysisMap rest with
            | .error e => .error e
            | .ok d => .ok (dictInsert d n sev)

/-- `BundleComparator._compare_analysis_results`: both inputs must be
lists, and the sets of analyzer names (from items having a `name` field)
must coincide. The subsequent severity scan only prints informational
output and never fails, so it is not modelled. -/
def compareAnalysisResults (baseline current : JVal) : Except String Bool :=
  match baseline, current with
  | .arr bItems, .arr cItems =>
    (match buildAnalysisMap bItems with
     | .error e => .error e
     | .ok bMap =>
       match buildAnalysisMap cItems with
       | .error e => .error e
       | .ok cMap =>
         if !sameSetJ (bMap.map Prod.fst) (cMap.map Prod.fst) then .ok false
         else .ok true)
  | _, _ => .ok false

/-- The comparator dispatch of `BundleComparator._compare_structural`;
an unrecognized comparator name is an automatic pass. -/
def applyComparator (comparator : String) (baseline current : JVal) :
    Except String Bool :=
  if comparator == "database_connection" then
    compareDatabaseConnection baseline current
  else if comparator == "dns_structure" then
    compareDnsStructure baseline current
  else if comparator == "registry_exists" then
    compareRegistryExists baseline current
  else if comparator == "http_status" then
    compareHttpStatus baseline current
  else if comparator == "cluster_version" then
    compareClusterVersion baseline current
  else if comparator == "analysis_results" then
    compareAnalysisResults baseline current
  else
    .ok true

/-- `BundleComparator._compare_structural`: JSON-decode both files (the
`except json.JSONDecodeError` handler returns `False`, so a decode
failure on either side yields `ok false`, not an exception), then
dispatch to the named comparator. -/
def compareStructural (baseline current : FileContent) (comparator : String) :
    Except String Bool :=
  match baseline.json with
  | none => .ok false
  | some bData =>
    match current.json with
    | none => .ok false
    | some cData => applyComparator comparator bData cData

/-- `BundleComparator._compare_exact`: byte-for-byte equality. -/
def compareExact (baseline current : FileContent) : Bool :=
  baseline.text == current.text

/-- `BundleComparator._check_non_empty` for an existing file: non-zero
size, and valid JSON when the path suffix is `.json`. -/
def checkNonEmpty (current : FileContent) (relPath : String) : Bool :=
  if current.text.length == 0 then false
  else if pathSuffix relPath == ".json" then current.json.isSome
  else true

/-- The verdict `BundleComparator._compare_file` records for one common
file: one of the three match kinds, or a recorded difference carrying
the mode string and reason (an uncaught comparator exception is recorded
with mode `"error"`). -/
inductive Verdict where
  | exactMatch : Verdict
  | structMatch : Verdict
  | nonEmptyOk : Verdict
  | diff : String → String → Verdict
deriving DecidableEq

/-- Whether a verdict is recorded via `_record_diff`. -/
def isDiffVerdict : Verdict → Bool
  | .diff _ _ => true
  | _ => false

/-- Whether a verdict is a comparison error (the `except Exception`
handler of `_compare_file` records mode `"error"`). -/
def isErrorVerdict : Verdict → Bool
  | .diff m _ => m == "error"
  | _ => false

/-- `BundleComparator._compare_file` on one common file pair. -/
def compareFileV (rules : RuleSet) (baseline current : FileContent)
    (relPath : String) : Verdict :=
  match getComparisonMode rules relPath with
  | .exact =>
    if compareExact baseline current then .exactMatch
    else .diff "exact" "Content mismatch"
  | .structural =>
    let comparator := getStructuralComparator rules relPath
    match compareStructural baseline current comparator with
    | .ok true => .structMatch
    | .ok false =>
      .diff "structural" ("Structural comparison failed (" ++ comparator ++ ")")
    | .error e => .diff "error" ("Comparison error: " ++ e)
  | .nonEmpty =>
    if checkNonEmpty current relPath then .nonEmptyOk
    else .diff "non_empty" "File is empty"

/-- The result aggregate built by one run of `BundleComparator.compare`
(`self.results`, without the constant `spec_type` string). -/
structure Results where
  files_compared : Nat
  exact_matches : Nat
  structural_matches : Nat
  non_empty_checks : Nat
  files_different : Nat
  files_missing_in_current : Nat
  files_missing_in_baseline : Nat
  differences : List (String × String × String)
  missing_in_current : List String
  missing_in_baseline : List String
deriving DecidableEq

/-- The freshly initialized result aggregate. -/
def initResults : Results :=
  { files_compared := 0
    exact_matches := 0
    structural_matches := 0
    non_empty_checks := 0
    files_different := 0
    files_missing_in_current := 0
    files_missing_in_baseline := 0
    differences := []
    missing_in_current := []
    missing_in_baseline := [] }

/-- `BundleComparator._record_diff`. -/
def recordDiff (r : Results) (file mode reason : String) : Results :=
  { r with
    files_different := r.files_different + 1
    differences := r.differences ++ [(file, mode, reason)] }

/-- `BundleComparator._record_missing` (`inCurrent = true` models the
`"current"` location argument). -/
def recordMissing (r : Results) (inCurrent : Bool) (file : String) : Results :=
  if inCurrent then
    { r with
      files_missing_in_current := r.files_missing_in_current + 1
      missing_in_current := r.missing_in_current ++ [file] }
  else
    { r with
      files_missing_in_baseline := r.files_missing_in_baseline + 1
      missing_in_baseline := r.missing_in_baseline ++ [file] }

/-- Account one common file's verdict into the aggregate, as
`_compare_file` does (`files_compared` first, then exactly one of the
four outcome fields). -/
def applyVerdict (r : Results) (relPath : String) (v : Verdict) : Results :=
  let r := { r with files_compared := r.files_compared + 1 }
  match v with
  | .exactMatch => { r with exact_matches := r.exact_matches + 1 }
  | .structMatch => { r with structural_matches := r.structural_matches + 1 }
  | .nonEmptyOk => { r with non_empty_checks := r.non_empty_checks + 1 }
  | .diff mode reason => recordDiff r relPath mode reason

/-- An extracted bundle: a finite map from relative path to file
content, modelled as an association list. -/
abbrev Bundle := List (String × FileContent)

/-- The relative paths of a bundle. -/
def bundlePaths (b : Bundle) : List String :=
  b.map Prod.fst

/-- Whether a bundle contains a path. -/
def bundleHas (b : Bundle) (p : String) : Bool :=
  (bundlePaths b).contains p

/-- The content stored at a path (used only at paths present in the
bundle). -/
def contentAt (b : Bundle) (p : String) : FileContent :=
  match b with
  | [] => { text := "", json := none }
  | (q, fc) :: rest => if q = p then fc else contentAt rest p

/-- `BundleComparator.compare` after extraction: record non-allowlisted
missing files in both directions, then compare every common file.
Iteration order (sorted in the source) affects only the order of the
recorded lists, never the counts or the pass verdict, and is modelled
as the baseline/current listing order. -/
def runCompare (rules : RuleSet) (baseline current : Bundle) : Results :=
  let missingInCurrent := (bundlePaths baseline).filter (fun p => !bundleHas current p)
  let missingInBaseline := (bundlePaths current).filter (fun p => !bundleHas baseline p)
  let commonFiles := (bundlePaths baseline).filter (fun p => bundleHas current p)
  let r0 := missingInCurrent.foldl
    (fun r p => if isOptional p then r else recordMissing r true p) initResults
  let r1 := missingInBaseline.foldl
    (fun r p => if isOptional p then r else recordMissing r false p) r0
  commonFiles.foldl
    (fun r p => applyVerdict r p (compareFileV rules (contentAt baseline p) (contentAt current p) p))
    r1

/-- The boolean returned by `BundleComparator.compare`: `True` iff no
regression was detected. -/
def runPass (rules : RuleSet) (baseline current : Bundle) : Bool :=
  let results := runCompare rules baseline current
  !(decide (results.files_different > 0) || decide (results.files_missing_in_current > 0))

/-! Specification-side definitions, written from the claims' wording (not
from the code), used to state refinement theorems and counterexamples. -/

/-- Total field lookup as the specification reads dotted paths: the field
of an object, `null` when absent or when the value is not an object. -/
def jfield (v : JVal) (k : String) : JVal :=
  match v with
  | .obj m => (objLookup k m).getD .null
  | _ => .null

/-- Total dotted-path lookup. -/
def jpath (v : JVal) (path : List String) : JVal :=
  path.foldl jfield v

/-- A non-empty collection in the specification's sense: a sized value
(string, array or object) with at least one element. -/
def isNonEmptyCollection : JVal → Bool
  | .str s => s != ""
  | .arr l => !l.isEmpty
  | .obj m => !m.isEmpty
  | _ => false

/-- The `dns_structure` pass condition as the specification states it:
`query.kubernetes.address` non-empty, `kubeDNSService` non-empty,
`kubeDNSPods` a non-empty collection, `query.nonResolvableDomain.address`
absent or empty — all on the current document only. -/
def dnsSpecOK (c : JVal) : Bool :=
  truthy (jpath c ["query", "kubernetes", "address"]) &&
  truthy (jfield c "kubeDNSService") &&
  isNonEmptyCollection (jfield c "kubeDNSPods") &&
  !truthy (jpath c ["query", "nonResolvableDomain", "address"])

/-- The extra well-formedness the code requires beyond `dnsSpecOK`: a
present `query.nonResolvableDomain` entry must itself be an object,
otherwise the final `.get` chain raises and the file is recorded as a
comparison error. -/
def nrdGuard (c : JVal) : Bool :=
  match jfield c "query" with
  | .obj qm =>
    (match objLookup "nonResolvableDomain" qm with
     | some v => isObj v
     | none => true)
  | _ => true

/-- The image map of a registry document as the specification reads it:
the entries under `images` (empty when absent or not an object). -/
def imagesOf (v : JVal) : List (String × JVal) :=
  match v with
  | .obj m =>
    (match objLookup "images" m with
     | some (.obj im) => im
     | _ => [])
  | _ => []

/-- The `exists` flag of one image entry, absent treated as `False`. -/
def existsFlagOf (im : List (String × JVal)) (name : String) : JVal :=
  match objLookup name im with
  | some (.obj fields) => (objLookup "exists" fields).getD (.bool false)
  | _ => .bool false

/-- The `registry_exists` pass condition as the specification states it:
identical image-name key sets and, for each shared image, equal `exists`
flags (absent treated as `False`). -/
def regSpecPass (b c : JVal) : Bool :=
  let bi := imagesOf b
  let ci := imagesOf c
  sameSetStr (bi.map Prod.fst) (ci.map Prod.fst) &&
    (bi.map Prod.fst).all (fun n => existsFlagOf bi n == existsFlagOf ci n)

/-- Well-formedness of a registry document under which the comparator is
exception-free and its `exists` comparisons coincide with Python's: the
document is an object, a present `images` entry is an object, every image
value is an object, and a present `exists` field is a boolean. -/
def registryDocWF (v : JVal) : Bool :=
  match v with
  | .obj m =>
    (match objLookup "images" m with
     | none => true
     | some (.obj im) =>
       im.all (fun p =>
         match p.2 with
         | .obj fields =>
           (match objLookup "exists" fields with
            | none => true
            | some (.bool _) => true
            | some _ => false)
         | _ => false)
     | some _ => false)
  | _ => false

/-- Well-formedness of one element of an `analysis_results` document: a
record (object) whose `name` field, when present, is a string. -/
def anaElemWF (e : JVal) : Bool :=
  match e with
  | .obj m =>
    (match objLookup "name" m with
     | none => true
     | some (.str _) => true
     | some _ => false)
  | _ => false

/-- The analyzer names of an `analysis_results` document: the `name`
values of the records that have one. -/
def namesOf (l : List JVal) : List JVal :=
  l.filterMap (fun e =>
    match e with
    | .obj m => objLookup "name" m
    | _ => none)

/-- The `analysis_results` pass condition as the claim states it for
sequences: the sets of analyzer names coincide. -/
def anaSpecPass (b c : JVal) : Bool :=
  match b, c with
  | .arr bl, .arr cl => sameSetJ (namesOf bl) (namesOf cl)
  | _, _ => false

/-- Whether a present named field is an object or absent (on an object
document); false on non-object documents. -/
def fieldObjOrAbsent (d : JVal) (k : String) : Bool :=
  match d with
  | .obj m =>
    (match objLookup k m with
     | some v => isObj v
     | none => true)
  | _ => false

/-- The non-empty check as the claim states it: non-zero size, and valid
JSON when the path's extension is `.json`. -/
def nonEmptySpec (fc : FileContent) (relPath : String) : Bool :=
  (fc.text != "") && (if pathSuffix relPath == ".json" then fc.json.isSome else true)

/-- A per-comparator condition on a single document under which the
comparator accepts the document against an identical copy of itself. -/
def selfAccepts (comparator : String) (d : JVal) : Bool :=
  if comparator == "database_connection" then isObj d
  else if comparator == "dns_structure" then dnsSpecOK d && nrdGuard d
  else if comparator == "registry_exists" then registryDocWF d
  else if comparator == "http_status" then fieldObjOrAbsent d "response"
  else if comparator == "cluster_version" then fieldObjOrAbsent d "info"
  else if comparator == "analysis_results" then
    (match d with
     | .arr l => l.all anaElemWF
     | _ => false)
  else true

/-- Condition on one bundle file under which comparing it against itself
yields a match verdict: exact files always do; structural files must
decode and be self-accepted by their comparator; non-empty files must
satisfy the non-empty check. -/
def selfOK (rules : RuleSet) (p : String) (fc : FileContent) : Bool :=
  match getComparisonMode rules p with
  | .exact => true
  | .structural =>
    (match fc.json with
     | none => false
     | some d => selfAccepts (getStructuralComparator rules p) d)
  | .nonEmpty => nonEmptySpec fc p

/-- The bookkeeping invariant maintained by the result aggregate. -/
def resultsInv (r : Results) : Prop :=
  r.files_compared = r.exact_matches + r.structural_matches +
      r.non_empty_checks + r.files_different ∧
    r.differences.length = r.files_different ∧
    r.missing_in_current.length = r.files_missing_in_current ∧
    r.missing_in_baseline.length = r.files_missing_in_baseline

/-! Helper lemmas about the result-aggregate folds. -/

theorem foldl_inv {α β : Type} (P : β → Prop) (f : β → α → β)
    (h : ∀ b a, P b → P (f b a)) :
    ∀ (l : List α) (b : β), P b → P (l.foldl f b) := by
  intro l
  induction l with
  | nil => intro b hb; exact hb
  | cons a t ih => intro b hb; exact ih (f b a) (h b a hb)

theorem applyVerdict_files_different (r : Results) (p : String) (v : Verdict) :
    (applyVerdict r p v).files_different =
      r.files_different + (if isDiffVerdict v then 1 else 0) := by
  cases v <;> simp [applyVerdict, recordDiff, isDiffVerdict]

theorem applyVerdict_missing (r : Results) (p : String) (v : Verdict) :
    (applyVerdict r p v).files_missing_in_current = r.files_missing_in_current ∧
      (applyVerdict r p v).files_missing_in_baseline = r.files_missing_in_baseline := by
  cases v
  all_goals simp [applyVerdict, recordDiff]

theorem foldl_applyVerdict_files_different (vf : String → Verdict) :
    ∀ (l : List String) (r : Results),
      (l.foldl (fun r p => applyVerdict r p (vf p)) r).files_different =
        r.files_different + l.countP (fun p => isDiffVerdict (vf p)) := by
  intro l
  induction l with
  | nil => intro r; simp
  | cons p t ih =>
    intro r
    rw [List.foldl_cons, ih, applyVerdict_files_different]
    rw [List.countP_cons]
    by_cases h : isDiffVerdict (vf p)
    · simp [h]
      omega
    · simp [h]

theorem foldl_applyVerdict_missing (vf : String → Verdict) :
    ∀ (l : List String) (r : Results),
      (l.foldl (fun r p => applyVerdict r p (vf p)) r).files_missing_in_current =
          r.files_missing_in_current ∧
        (l.foldl (fun r p => applyVerdict r p (vf p)) r).files_missing_in_baseline =
          r.files_missing_in_baseline := by
  intro l
  induction l with
  | nil => intro r; simp
  | cons p t ih =>
    intro r
    rw [List.foldl_cons]
    rcases ih (applyVerdict r p (vf p)) with ⟨h1, h2⟩
    rcases applyVerdict_missing r p (vf p) with ⟨h3, h4⟩
    exact ⟨h1.trans h3, h2.trans h4⟩

theorem foldl_recordMissing_true :
    ∀ (l : List String) (r : Results),
      ((l.foldl (fun r p => if isOptional p then r else recordMissing r true p) r).files_missing_in_current =
          r.files_missing_in_current + l.countP (fun p => !isOptional p)) ∧
        ((l.foldl (fun r p => if isOptional p then r else recordMissing r true p) r).files_missing_in_baseline =
          r.files_missing_in_baseline) ∧
        ((l.foldl (fun r p => if isOptional p then r else recordMissing r true p) r).files_different =
          r.files_different) := by
  intro l
  induction l with
  | nil => intro r; simp
  | cons p t ih =>
    intro r
    rw [List.foldl_cons, List.countP_cons]
    by_cases h : isOptional p
    · rcases ih r with ⟨h1, h2, h3⟩
      simp [h, h1, h2, h3]
    · simp only [h, Bool.false_eq_true, if_false]
      rcases ih (recordMissing r true p) with ⟨h1, h2, h3⟩
      rw [h1, h2, h3]
      simp [recordMissing, h]
      omega

theorem foldl_recordMissing_false :
    ∀ (l : List String) (r : Results),
      ((l.foldl (fun r p => if isOptional p then r else recordMissing r false p) r).files_missing_in_baseline =
          r.files_missing_in_baseline + l.countP (fun p => !isOptional p)) ∧
        ((l.foldl (fun r p => if isOptional p then r else recordMissing r false p) r).files_missing_in_current =
          r.files_missing_in_current) ∧
        ((l.foldl (fun r p => if isOptional p then r else recordMissing r false p) r).files_different =
          r.files_different) := by
  intro l
  induction l with
  | nil => intro r; simp
  | cons p t ih =>
    intro r
    rw [List.foldl_cons, List.countP_cons]
    by_cases h : isOptional p
    · rcases ih r with ⟨h1, h2, h3⟩
      simp [h, h1, h2, h3]
    · simp only [h, Bool.false_eq_true, if_false]
      rcases ih (recordMissing r false p) with ⟨h1, h2, h3⟩
      rw [h1, h2, h3]
      simp [recordMissing, h]
      omega

theorem runCompare_files_different (rules : RuleSet) (baseline current : Bundle) :
    (runCompare rules baseline current).files_different =
      ((bundlePaths baseline).filter (fun p => bundleHas current p)).countP
        (fun p => isDiffVerdict (compareFileV rules (contentAt baseline p) (contentAt current p) p)) := by
  unfold runCompare
  rw [foldl_applyVerdict_files_different
    (fun p => compareFileV rules (contentAt baseline p) (contentAt current p) p)]
  rw [(foldl_recordMissing_false _ _).2.2, (foldl_recordMissing_true _ _).2.2]
  simp [initResults]

theorem runCompare_files_missing_in_current (rules : RuleSet) (baseline current : Bundle) :
    (runCompare rules baseline current).files_missing_in_current =
      ((bundlePaths baseline).filter (fun p => !bundleHas current p)).countP
        (fun p => !isOptional p) := by
  unfold runCompare
  rw [(foldl_applyVerdict_missing _ _ _).1]
  rw [(foldl_recordMissing_false _ _).2.1, (foldl_recordMissing_true _ _).1]
  simp [initResults]

theorem runCompare_files_missing_in_baseline (rules : RuleSet) (baseline current : Bundle) :
    (runCompare rules baseline current).files_missing_in_baseline =
      ((bundlePaths current).filter (fun p => !bundleHas baseline p)).countP
        (fun p => !isOptional p) := by
  unfold runCompare
  rw [(foldl_applyVerdict_missing _ _ _).2]
  rw [(foldl_recordMissing_false _ _).1, (foldl_recordMissing_true _ _).2.1]
  simp [initResults]

/-- C1: the run-level pass verdict is `True` iff no common file received a
`Different` verdict and no non-allowlisted baseline file is missing from
the current bundle; the missing-in-baseline count (last conjunct) plays no
role in the characterization. -/
theorem claim_C1 (rules : RuleSet) (baseline current : Bundle) :
    (runPass rules baseline current = true ↔
      (((bundlePaths baseline).filter (fun p => bundleHas current p)).countP
          (fun p => isDiffVerdict (compareFileV rules (contentAt baseline p) (contentAt current p) p)) = 0 ∧
        ((bundlePaths baseline).filter (fun p => !bundleHas current p)).countP
          (fun p => !isOptional p) = 0)) ∧
      (runCompare rules baseline current).files_different =
        ((bundlePaths baseline).filter (fun p => bundleHas current p)).countP
          (fun p => isDiffVerdict (compareFileV rules (contentAt baseline p) (contentAt current p) p)) ∧
      (runCompare rules baseline current).files_missing_in_current =
        ((bundlePaths baseline).filter (fun p => !bundleHas current p)).countP
          (fun p => !isOptional p) ∧
      (runCompare rules baseline current).files_missing_in_baseline =
        ((bundlePaths current).filter (fun p => !bundleHas baseline p)).countP
          (fun p => !isOptional p) := by
  refine ⟨?_, runCompare_files_different rules baseline current,
    runCompare_files_missing_in_current rules baseline current,
    runCompare_files_missing_in_baseline rules baseline current⟩
  unfold runPass
  rw [← runCompare_files_different rules baseline current,
    ← runCompare_files_missing_in_current rules baseline current]
  simp only [Bool.not_eq_true', Bool.or_eq_false_iff, decide_eq_false_iff_not]
  omega

theorem resultsInv_recordMissing (r : Results) (inCurrent : Bool) (p : String)
    (hr : resultsInv r) : resultsInv (recordMissing r inCurrent p) := by
  rcases hr with ⟨h1, h2, h3, h4⟩
  cases inCurrent <;>
    exact ⟨by simp [recordMissing, h1], by simp [recordMissing, h2],
      by simp [recordMissing, h3], by simp [recordMissing, h4]⟩

theorem resultsInv_holds (rules : RuleSet) (baseline current : Bundle) :
    resultsInv (runCompare rules baseline current) := by
  simp only [runCompare]
  apply foldl_inv resultsInv
  · intro r p hr
    rcases hr with ⟨h1, h2, h3, h4⟩
    cases hv : compareFileV rules (contentAt baseline p) (contentAt current p) p <;>
      refine ⟨?_, ?_, ?_, ?_⟩ <;>
        simp [applyVerdict, recordDiff, h1, h2, h3, h4] <;> omega
  · apply foldl_inv resultsInv
    · intro r p hr
      by_cases h : isOptional p
      · simpa [h] using hr
      · simp only [h, Bool.false_eq_true, if_false]
        exact resultsInv_recordMissing r false p hr
    · apply foldl_inv resultsInv
      · intro r p hr
        by_cases h : isOptional p
        · simpa [h] using hr
        · simp only [h, Bool.false_eq_true, if_false]
          exact resultsInv_recordMissing r true p hr
      · exact ⟨rfl, rfl, rfl, rfl⟩

theorem find?_first {α : Type} (p : α → Bool) :
    ∀ (l1 : List α) (a : α) (l2 : List α),
      (∀ x ∈ l1, p x = false) → p a = true →
      List.find? p (l1 ++ a :: l2) = some a := by
  intro l1
  induction l1 with
  | nil => intro a l2 _ ha; simp [List.find?_cons, ha]
  | cons x t ih =>
    intro a l2 hl ha
    have hx : p x = false := hl x (List.mem_cons_self x t)
    simp only [List.cons_append, List.find?_cons, hx]
    exact ih a l2 (fun y hy => hl y (List.mem_cons_of_mem x hy)) ha

theorem checkNonEmpty_iff (c : FileContent) (relPath : String) :
    checkNonEmpty c relPath = true ↔
      (c.text ≠ "" ∧ (pathSuffix relPath = ".json" → c.json.isSome = true)) := by
  unfold checkNonEmpty
  by_cases hemp : c.text = ""
  · simp [hemp, String.length]
  · have hlen : (c.text.length == 0) = false := by
      rw [beq_eq_false_iff_ne]
      intro h
      apply hemp
      cases hc : c.text with
      | mk data =>
        rw [hc] at h
        simp [String.length] at h
        simp [h]
    rw [hlen]
    by_cases hsuf : pathSuffix relPath = ".json"
    · simp [hsuf, hemp]
    · have : (pathSuffix relPath == ".json") = false := by
        simpa using hsuf
      simp [this, hemp, hsuf]

theorem truthy_null : truthy .null = false := rfl

theorem truthy_bool (b : Bool) : truthy (.bool b) = b := rfl

theorem truthy_num (n : Int) : truthy (.num n) = (n != 0) := rfl

theorem truthy_str (s : String) : truthy (.str s) = (s != "") := rfl

theorem truthy_arr (l : List JVal) : truthy (.arr l) = !l.isEmpty := rfl

theorem truthy_obj (m : List (String × JVal)) : truthy (.obj m) = !m.isEmpty := rfl

theorem objLookup_nil (k : String) : objLookup k [] = none := rfl

theorem dns_ok_iff (b c : JVal) :
    compareDnsStructure b c = .ok true ↔ (dnsSpecOK c = true ∧ nrdGuard c = true) := by
  cases c with
  | null =>
    simp [compareDnsStructure, pyIn, dnsSpecOK, jpath, jfield, truthy_null]
  | bool bb =>
    simp [compareDnsStructure, pyIn, dnsSpecOK, jpath, jfield, truthy_null]
  | num n =>
    simp [compareDnsStructure, pyIn, dnsSpecOK, jpath, jfield, truthy_null]
  | str s =>
    cases hq : containsChars "query".data s.data <;>
      simp [compareDnsStructure, pyIn, pyIndexStr, hq, dnsSpecOK, jpath, jfield,
        truthy_null]
  | arr l =>
    by_cases hq : (JVal.str "query") ∈ l <;>
      simp [compareDnsStructure, pyIn, pyIndexStr, hq, dnsSpecOK, jpath, jfield,
        truthy_null]
  | obj m =>
    cases hq : objLookup "query" m with
    | none =>
      simp [compareDnsStructure, pyIn, pyIndexStr, hq, dnsSpecOK, jpath, jfield,
        truthy_null]
    | some q =>
      cases q with
      | null =>
        simp [compareDnsStructure, pyIn, pyIndexStr, hq, dnsSpecOK, jpath, jfield,
          truthy_null, nrdGuard]
      | bool bb =>
        simp [compareDnsStructure, pyIn, pyIndexStr, hq, dnsSpecOK, jpath, jfield,
          truthy_null, nrdGuard]
      | num n =>
        simp [compareDnsStructure, pyIn, pyIndexStr, hq, dnsSpecOK, jpath, jfield,
          truthy_null, nrdGuard]
      | str s =>
        cases hk : containsChars "kubernetes".data s.data <;>
          simp [compareDnsStructure, pyIn, pyIndexStr, hq, hk, dnsSpecOK, jpath, jfield,
            truthy_null, nrdGuard]
      | arr l =>
        by_cases hk : (JVal.str "kubernetes") ∈ l <;>
          simp [compareDnsStructure, pyIn, pyIndexStr, hq, hk, dnsSpecOK, jpath, jfield,
            truthy_null, nrdGuard]
      | obj qm =>
        cases hk : objLookup "kubernetes" qm with
        | none =>
          simp [compareDnsStructure, pyIn, pyIndexStr, pyGet, hq, hk, dnsSpecOK, jpath,
            jfield, truthy_null, nrdGuard]
        | some k =>
          cases k with
          | obj km =>
            cases haddr : truthy ((objLookup "address" km).getD .null) with
            | false =>
              simp [compareDnsStructure, pyIn, pyIndexStr, pyGet, hq, hk, haddr,
                dnsSpecOK, jpath, jfield, nrdGuard]
            | true =>
              cases hsvc : truthy ((objLookup "kubeDNSService" m).getD .null) with
              | false =>
                simp [compareDnsStructure, pyIn, pyIndexStr, pyGet, hq, hk, haddr, hsvc,
                  dnsSpecOK, jpath, jfield, nrdGuard]
              | true =>
                cases hp : objLookup "kubeDNSPods" m with
                | none =>
                  simp [compareDnsStructure, pyIn, pyIndexStr, pyGet, hq, hk, haddr, hsvc,
                    hp, dnsSpecOK, jpath, jfield, truthy_null, isNonEmptyCollection,
                    nrdGuard]
                | some pods =>
                  cases pods with
                  | null =>
                    simp [compareDnsStructure, pyIn, pyIndexStr, pyGet, hq, hk, haddr,
                      hsvc, hp, dnsSpecOK, jpath, jfield, truthy_null,
                      isNonEmptyCollection, nrdGuard]
                  | bool pb =>
                    cases pb <;>
                      simp [compareDnsStructure, pyIn, pyIndexStr, pyGet, pyLen, hq, hk,
                        haddr, hsvc, hp, dnsSpecOK, jpath, jfield, truthy_bool,
                        isNonEmptyCollection, nrdGuard]
                  | num pn =>
                    by_cases hpn : pn = 0 <;>
                      simp [compareDnsStructure, pyIn, pyIndexStr, pyGet, pyLen, hq, hk,
                        haddr, hsvc, hp, hpn, dnsSpecOK, jpath, jfield, truthy_num,
                        isNonEmptyCollection, nrdGuard]
                  | str ps =>
                    by_cases hps : ps = ""
                    · simp [compareDnsStructure, pyIn, pyIndexStr, pyGet, pyLen, hq, hk,
                        haddr, hsvc, hp, hps, dnsSpecOK, jpath, jfield, truthy_str,
                        isNonEmptyCollection, nrdGuard]
                    · have hlen : (ps.length == 0) = false := by
                        rw [beq_eq_false_iff_ne]
                        intro h
                        apply hps
                        cases hcc : ps with
                        | mk data =>
                          rw [hcc] at h
                          simp [String.length] at h
                          simp [h]
                      cases hn : objLookup "nonResolvableDomain" qm with
                      | none =>
                        simp [compareDnsStructure, pyIn, pyIndexStr, pyGet, pyLen, hq,
                          hk, haddr, hsvc, hp, hps, hlen, hn, dnsSpecOK, jpath, jfield,
                          truthy_null, truthy_str, isNonEmptyCollection, nrdGuard,
                          objLookup_nil]
                      | some v =>
                        cases v <;>
                          simp [compareDnsStructure, pyIn, pyIndexStr, pyGet, pyLen, hq,
                            hk, haddr, hsvc, hp, hps, hlen, hn, dnsSpecOK, jpath, jfield,
                            truthy_null, truthy_str, isNonEmptyCollection, nrdGuard,
                            isObj]
                  | arr pl =>
                    cases pl with
                    | nil =>
                      simp [compareDnsStructure, pyIn, pyIndexStr, pyGet, pyLen, hq, hk,
                        haddr, hsvc, hp, dnsSpecOK, jpath, jfield, truthy_arr,
                        isNonEmptyCollection, nrdGuard]
                    | cons ph pt =>
                      cases hn : objLookup "nonResolvableDomain" qm with
                      | none =>
                        simp [compareDnsStructure, pyIn, pyIndexStr, pyGet, pyLen, hq,
                          hk, haddr, hsvc, hp, hn, dnsSpecOK, jpath, jfield, truthy_null,
                          truthy_arr, isNonEmptyCollection, nrdGuard, objLookup_nil]
                      | some v =>
                        cases v <;>
                          simp [compareDnsStructure, pyIn, pyIndexStr, pyGet, pyLen, hq,
                            hk, haddr, hsvc, hp, hn, dnsSpecOK, jpath, jfield,
                            truthy_null, truthy_arr, isNonEmptyCollection, nrdGuard,
                            isObj]
                  | obj pm =>
                    cases pm with
                    | nil =>
                      simp [compareDnsStructure, pyIn, pyIndexStr, pyGet, pyLen, hq, hk,
                        haddr, hsvc, hp, dnsSpecOK, jpath, jfield, truthy_obj,
                        isNonEmptyCollection, nrdGuard]
                    | cons ph pt =>
                      cases hn : objLookup "nonResolvableDomain" qm with
                      | none =>
                        simp [compareDnsStructure, pyIn, pyIndexStr, pyGet, pyLen, hq,
                          hk, haddr, hsvc, hp, hn, dnsSpecOK, jpath, jfield, truthy_null,
                          truthy_obj, isNonEmptyCollection, nrdGuard, objLookup_nil]
                      | some v =>
                        cases v <;>
                          simp [compareDnsStructure, pyIn, pyIndexStr, pyGet, pyLen, hq,
                            hk, haddr, hsvc, hp, hn, dnsSpecOK, jpath, jfield,
                            truthy_null, truthy_obj, isNonEmptyCollection, nrdGuard,
                            isObj]
          | null =>
            simp [compareDnsStructure, pyIn, pyIndexStr, pyGet, hq, hk, dnsSpecOK,
              jpath, jfield, truthy_null, nrdGuard]
          | bool kb =>
            simp [compareDnsStructure, pyIn, pyIndexStr, pyGet, hq, hk, dnsSpecOK,
              jpath, jfield, truthy_null, nrdGuard]
          | num kn =>
            simp [compareDnsStructure, pyIn, pyIndexStr, pyGet, hq, hk, dnsSpecOK,
              jpath, jfield, truthy_null, nrdGuard]
          | str ks =>
            simp [compareDnsStructure, pyIn, pyIndexStr, pyGet, hq, hk, dnsSpecOK,
              jpath, jfield, truthy_null, nrdGuard]
          | arr kl =>
            simp [compareDnsStructure, pyIn, pyIndexStr, pyGet, hq, hk, dnsSpecOK,
              jpath, jfield, truthy_null, nrdGuard]

/-- C5 (amended): the `dns_structure` comparator never consults the
baseline document, and it passes iff the current document satisfies the
four stated conditions AND a present `query.nonResolvableDomain` entry is
an object (a present non-object entry makes the final `.get` chain raise,
recording a comparison error rather than a pass). -/
theorem claim_C5 (b₁ b₂ c : JVal) :
    compareDnsStructure b₁ c = compareDnsStructure b₂ c ∧
      (compareDnsStructure b₁ c = .ok true ↔ (dnsSpecOK c = true ∧ nrdGuard c = true)) :=
  ⟨rfl, dns_ok_iff b₁ c⟩

/-- The claim C5 as frozen is false: on a current document satisfying all
four stated conditions whose `query.nonResolvableDomain` is `null`
(`.address` therefore absent), the comparator raises instead of passing. -/
theorem claim_C5_counterexample :
    dnsSpecOK
        (.obj [("query", .obj [("kubernetes", .obj [("address", .str "10.0.0.1")]),
                               ("nonResolvableDomain", .null)]),
               ("kubeDNSService", .str "x"),
               ("kubeDNSPods", .arr [.str "p1"])]) = true ∧
      compareDnsStructure .null
          (.obj [("query", .obj [("kubernetes", .obj [("address", .str "10.0.0.1")]),
                                 ("nonResolvableDomain", .null)]),
                 ("kubeDNSService", .str "x"),
                 ("kubeDNSPods", .arr [.str "p1"])]) ≠ .ok true := by
  exact ⟨by decide, by decide⟩

theorem objLookup_mem_keys :
    ∀ (im : List (String × JVal)) (n : String), n ∈ im.map Prod.fst →
      ∃ v, objLookup n im = some v ∧ (n, v) ∈ im := by
  intro im
  induction im with
  | nil => intro n h; simp at h
  | cons p rest ih =>
    intro n h
    obtain ⟨k, v⟩ := p
    by_cases hk : k = n
    · subst hk
      exact ⟨v, by simp [objLookup], List.mem_cons_self _ _⟩
    · have hn : n ∈ rest.map Prod.fst := by
        rcases List.mem_map.mp h with ⟨q, hq, hqe⟩
        rcases List.mem_cons.mp hq with h' | h'
        · exact absurd (by rw [h'] at hqe; exact hqe) hk
        · exact List.mem_map.mpr ⟨q, h', hqe⟩
      obtain ⟨v', hv1, hv2⟩ := ih n hn
      exact ⟨v', by simp [objLookup, hk, hv1], List.mem_cons_of_mem _ hv2⟩

theorem sameSetStr_mem (a b : List String) (h : sameSetStr a b = true) :
    ∀ n ∈ a, n ∈ b := by
  intro n hn
  unfold sameSetStr at h
  rcases Bool.and_eq_true_iff.mp h with ⟨h1, _⟩
  rw [List.all_eq_true] at h1
  have := h1 n hn
  simpa using this

theorem registryDocWF_destruct (b : JVal) (hb : registryDocWF b = true) :
    ∃ bm bim, b = .obj bm ∧ (objLookup "images" bm).getD (.obj []) = .obj bim ∧
      imagesOf b = bim ∧ ∀ p ∈ bim, ∃ f, p.2 = .obj f := by
  cases b with
  | obj bm =>
    cases hbi : objLookup "images" bm with
    | none =>
      exact ⟨bm, [], rfl, by simp [hbi], by simp [imagesOf, hbi], by simp⟩
    | some v =>
      cases v with
      | obj bim =>
        refine ⟨bm, bim, rfl, by simp [hbi], by simp [imagesOf, hbi], ?_⟩
        simp only [registryDocWF] at hb
        rw [hbi] at hb
        rw [List.all_eq_true] at hb
        intro p hp
        have := hb p hp
        cases hv : p.2 with
        | obj f => exact ⟨f, rfl⟩
        | null => rw [hv] at this; simp at this
        | bool x => rw [hv] at this; simp at this
        | num x => rw [hv] at this; simp at this
        | str x => rw [hv] at this; simp at this
        | arr x => rw [hv] at this; simp at this
      | null => simp only [registryDocWF] at hb; rw [hbi] at hb; simp at hb
      | bool x => simp only [registryDocWF] at hb; rw [hbi] at hb; simp at hb
      | num x => simp only [registryDocWF] at hb; rw [hbi] at hb; simp at hb
      | str x => simp only [registryDocWF] at hb; rw [hbi] at hb; simp at hb
      | arr x => simp only [registryDocWF] at hb; rw [hbi] at hb; simp at hb
  | null => simp [registryDocWF] at hb
  | bool x => simp [registryDocWF] at hb
  | num x => simp [registryDocWF] at hb
  | str x => simp [registryDocWF] at hb
  | arr x => simp [registryDocWF] at hb

theorem registryImagesLoop_eq (bim cim : List (String × JVal)) :
    ∀ (names : List String),
      (∀ n ∈ names,
        (∃ f, objLookup n bim = some (.obj f)) ∧ ∃ g, objLookup n cim = some (.obj g)) →
      registryImagesLoop (.obj bim) (.obj cim) names =
        .ok (names.all (fun n => existsFlagOf bim n == existsFlagOf cim n)) := by
  intro names
  induction names with
  | nil => intro _; rfl
  | cons n rest ih =>
    intro h
    obtain ⟨⟨f, hf⟩, ⟨g, hg⟩⟩ := h n (List.mem_cons_self n rest)
    have hrest := ih (fun x hx => h x (List.mem_cons_of_mem n hx))
    by_cases he : ((objLookup "exists" f).getD (JVal.bool false)) =
        ((objLookup "exists" g).getD (JVal.bool false))
    · simp [registryImagesLoop, pyIndexStr, hf, hg, pyGet, he, hrest,
        existsFlagOf, List.all_cons]
    · simp [registryImagesLoop, pyIndexStr, hf, hg, pyGet, he,
        existsFlagOf, List.all_cons]

theorem registry_exists_eq (b c : JVal)
    (hb : registryDocWF b = true) (hc : registryDocWF c = true) :
    compareRegistryExists b c = .ok (regSpecPass b c) := by
  obtain ⟨bm, bim, hbeq, hbd, hbi, hbwf⟩ := registryDocWF_destruct b hb
  obtain ⟨cm, cim, hceq, hcd, hci, hcwf⟩ := registryDocWF_destruct c hc
  subst hbeq hceq
  unfold compareRegistryExists regSpecPass
  simp only [pyGet, hbd, hcd, pyKeys, hbi, hci]
  by_cases hs : sameSetStr (bim.map Prod.fst) (cim.map Prod.fst) = true
  · rw [hs]
    simp only [Bool.not_true, Bool.false_eq_true, if_false, Bool.true_and]
    apply registryImagesLoop_eq
    intro n hn
    constructor
    · obtain ⟨v, hv, hmem⟩ := objLookup_mem_keys bim n hn
      obtain ⟨f, hfv⟩ := hbwf (n, v) hmem
      exact ⟨f, by rw [hv]; exact congrArg some hfv⟩
    · have hnc : n ∈ cim.map Prod.fst := sameSetStr_mem _ _ hs n hn
      obtain ⟨v, hv, hmem⟩ := objLookup_mem_keys cim n hnc
      obtain ⟨g, hgv⟩ := hcwf (n, v) hmem
      exact ⟨g, by rw [hv]; exact congrArg some hgv⟩
  · have hs' : sameSetStr (bim.map Prod.fst) (cim.map Prod.fst) = false :=
      Bool.eq_false_iff.mpr hs
    rw [hs']
    simp

/-- C6 (amended): on registry documents that are objects whose `images`
entries (when present) are objects with object values carrying boolean
(or absent) `exists` fields, the comparator returns exactly the
specification's predicate: it fails iff the image-name key sets differ or
some shared image's `exists` flag (absent read as `False`) differs, and
passes regardless of any other field; outside that well-formed domain the
comparator can raise (recorded as a comparison error) instead. -/
theorem claim_C6 (b c : JVal) (hb : registryDocWF b = true) (hc : registryDocWF c = true) :
    compareRegistryExists b c = .ok (regSpecPass b c) :=
  registry_exists_eq b c hb hc

/-- The claim C6 as frozen is false: with a non-object baseline document
(`null`) and an empty current document, the image key sets trivially
coincide and no `exists` flag differs, so the claim predicts a pass, but
the comparator raises (`None.get`) and the file is recorded as a
comparison error. -/
theorem claim_C6_counterexample :
    regSpecPass .null (.obj []) = true ∧
      compareRegistryExists .null (.obj []) ≠ .ok true := by
  exact ⟨by decide, by decide⟩

/-- Closed instance discharging `claim_C6`'s hypotheses: a flipped
`exists` flag fails even with identical key sets, and the equation gives
the exact pass predicate. -/
theorem claim_C6_witness :
    registryDocWF (.obj [("images", .obj [("a", .obj [("exists", .bool true)])])]) = true ∧
      regSpecPass (.obj [("images", .obj [("a", .obj [("exists", .bool true)])])])
          (.obj [("images", .obj [("a", .obj [("exists", .bool false)])])]) = false ∧
      compareRegistryExists (.obj [("images", .obj [("a", .obj [("exists", .bool true)])])])
          (.obj [("images", .obj [("a", .obj [("exists", .bool false)])])]) =
        .ok (regSpecPass (.obj [("images", .obj [("a", .obj [("exists", .bool true)])])])
          (.obj [("images", .obj [("a", .obj [("exists", .bool false)])])])) := by
  exact ⟨by decide, by decide,
    claim_C6 (.obj [("images", .obj [("a", .obj [("exists", .bool true)])])])
      (.obj [("images", .obj [("a", .obj [("exists", .bool false)])])])
      (by decide) (by decide)⟩

theorem sameSetJ_iff (a b : List JVal) :
    sameSetJ a b = true ↔ ((∀ x ∈ a, x ∈ b) ∧ ∀ x ∈ b, x ∈ a) := by
  unfold sameSetJ
  rw [Bool.and_eq_true_iff, List.all_eq_true, List.all_eq_true]
  constructor
  · intro ⟨h1, h2⟩
    exact ⟨fun x hx => by simpa using h1 x hx, fun x hx => by simpa using h2 x hx⟩
  · intro ⟨h1, h2⟩
    exact ⟨fun x hx => by simpa using h1 x hx, fun x hx => by simpa using h2 x hx⟩

theorem dictInsert_keys_mem (d : List (JVal × JVal)) (k v n : JVal) :
    n ∈ (dictInsert d k v).map Prod.fst ↔ (n ∈ d.map Prod.fst ∨ n = k) := by
  unfold dictInsert
  by_cases hp : d.any (fun p => p.1 == k) = true
  · rw [if_pos hp]
    have hkeys : (d.map (fun p => if p.1 == k then (k, v) else p)).map Prod.fst =
        d.map Prod.fst := by
      rw [List.map_map]
      apply List.map_congr_left
      intro p _
      by_cases he : (p.1 == k) = true
      · simp only [Function.comp_apply, he, if_true]
        exact (eq_of_beq he).symm
      · simp only [Function.comp_apply, he, Bool.false_eq_true, if_false]
    rw [hkeys]
    constructor
    · exact Or.inl
    · intro h
      rcases h with h | h
      · exact h
      · subst h
        rw [List.any_eq_true] at hp
        obtain ⟨p, hpd, hpk⟩ := hp
        exact List.mem_map.mpr ⟨p, hpd, eq_of_beq hpk⟩
  · rw [if_neg hp]
    simp [List.mem_append]

theorem buildAnalysisMap_ok :
    ∀ (l : List JVal), (∀ e ∈ l, anaElemWF e = true) →
      ∃ d, buildAnalysisMap l = .ok d ∧
        ∀ n : JVal, (n ∈ d.map Prod.fst ↔ n ∈ namesOf l) := by
  intro l
  induction l with
  | nil => intro _; exact ⟨[], rfl, by simp [namesOf]⟩
  | cons e rest ih =>
    intro h
    have hwf := h e (List.mem_cons_self e rest)
    obtain ⟨d, hd, hk⟩ := ih (fun x hx => h x (List.mem_cons_of_mem e hx))
    cases e with
    | obj em =>
      cases hname : objLookup "name" em with
      | none =>
        refine ⟨d, ?_, ?_⟩
        · simp [buildAnalysisMap, pyIn, hname, hd]
        · intro n
          rw [hk n]
          simp [namesOf, hname]
      | some nv =>
        have hstr : ∃ s, nv = .str s := by
          simp only [anaElemWF] at hwf
          rw [hname] at hwf
          cases nv with
          | str s => exact ⟨s, rfl⟩
          | null => simp at hwf
          | bool x => simp at hwf
          | num x => simp at hwf
          | arr x => simp at hwf
          | obj x => simp at hwf
        obtain ⟨s, hs⟩ := hstr
        subst hs
        refine ⟨dictInsert d (.str s) ((objLookup "severity" em).getD .null), ?_, ?_⟩
        · simp [buildAnalysisMap, pyIn, hname, pyGet, isArr, isObj, hd]
        · intro n
          rw [dictInsert_keys_mem, hk n]
          have heq : namesOf (JVal.obj em :: rest) = JVal.str s :: namesOf rest := by
            simp [namesOf, List.filterMap_cons, hname]
          rw [heq, List.mem_cons]
          tauto
    | null => simp [anaElemWF] at hwf
    | bool x => simp [anaElemWF] at hwf
    | num x => simp [anaElemWF] at hwf
    | str x => simp [anaElemWF] at hwf
    | arr x => simp [anaElemWF] at hwf

theorem ana_eq (bl cl : List JVal)
    (hb : ∀ e ∈ bl, anaElemWF e = true) (hc : ∀ e ∈ cl, anaElemWF e = true) :
    compareAnalysisResults (.arr bl) (.arr cl) =
      .ok (sameSetJ (namesOf bl) (namesOf cl)) := by
  obtain ⟨db, hdb, hkb⟩ := buildAnalysisMap_ok bl hb
  obtain ⟨dc, hdc, hkc⟩ := buildAnalysisMap_ok cl hc
  simp only [compareAnalysisResults, hdb, hdc]
  have hss : sameSetJ (db.map Prod.fst) (dc.map Prod.fst) =
      sameSetJ (namesOf bl) (namesOf cl) := by
    by_cases h : sameSetJ (namesOf bl) (namesOf cl) = true
    · rw [h]
      rw [sameSetJ_iff] at h ⊢
      exact ⟨fun x hx => (hkc x).mpr (h.1 x ((hkb x).mp hx)),
        fun x hx => (hkb x).mpr (h.2 x ((hkc x).mp hx))⟩
    · rw [Bool.eq_false_iff.mpr h]
      rw [Bool.eq_false_iff]
      intro hcon
      apply h
      rw [sameSetJ_iff] at hcon ⊢
      exact ⟨fun x hx => (hkc x).mp (hcon.1 x ((hkb x).mpr hx)),
        fun x hx => (hkb x).mp (hcon.2 x ((hkc x).mpr hx))⟩
  rw [hss]
  cases sameSetJ (namesOf bl) (namesOf cl) <;> simp

/-- C7 (amended): if either input is not a sequence the comparator
returns the failing verdict; on sequences of records (objects) whose
`name` values, when present, are strings, it returns exactly: fail iff
the analyzer name sets differ — severity values never influence the
result. Sequence elements outside that shape (e.g. `null`) make the
comparator raise, recording a comparison error instead. -/
theorem claim_C7 :
    (∀ b c : JVal, isArr b = false ∨ isArr c = false →
      compareAnalysisResults b c = .ok false) ∧
    (∀ bl cl : List JVal,
      (∀ e ∈ bl, anaElemWF e = true) → (∀ e ∈ cl, anaElemWF e = true) →
      compareAnalysisResults (.arr bl) (.arr cl) =
        .ok (sameSetJ (namesOf bl) (namesOf cl))) := by
  constructor
  · intro b c h
    cases b with
    | arr bl =>
      cases c with
      | arr cl => rcases h with h | h <;> simp [isArr] at h
      | null => rfl
      | bool x => rfl
      | num x => rfl
      | str x => rfl
      | obj x => rfl
    | null => rfl
    | bool x => rfl
    | num x => rfl
    | str x => rfl
    | obj x => rfl
  · exact ana_eq

/-- The claim C7 as frozen is false: both inputs are sequences and the
analyzer name sets coincide (both empty), so the claim predicts a pass,
but the element `null` makes `"name" in item` raise a `TypeError` and the
file is recorded as a comparison error. -/
theorem claim_C7_counterexample :
    anaSpecPass (.arr [.null]) (.arr [.null]) = true ∧
      compareAnalysisResults (.arr [.null]) (.arr [.null]) ≠ .ok true := by
  exact ⟨by decide, by decide⟩

/-- Closed instance discharging `claim_C7`'s hypotheses: a non-sequence
input fails, and a severity flip on a shared analyzer name still passes. -/
theorem claim_C7_witness :
    compareAnalysisResults .null (.arr []) = .ok false ∧
      compareAnalysisResults
          (.arr [.obj [("name", .str "a"), ("severity", .str "warn")]])
          (.arr [.obj [("name", .str "a"), ("severity", .str "error")]]) =
        .ok (sameSetJ (namesOf [.obj [("name", .str "a"), ("severity", .str "warn")]])
          (namesOf [.obj [("name", .str "a"), ("severity", .str "error")]])) := by
  exact ⟨claim_C7.1 .null (.arr []) (Or.inl rfl),
    claim_C7.2 [.obj [("name", .str "a"), ("severity", .str "warn")]]
      [.obj [("name", .str "a"), ("severity", .str "error")]] (by decide) (by decide)⟩

theorem sameSetStr_refl (a : List String) : sameSetStr a a = true := by
  unfold sameSetStr
  rw [Bool.and_self, List.all_eq_true]
  intro x hx
  simpa using hx

theorem sameSetJ_refl (a : List JVal) : sameSetJ a a = true := by
  unfold sameSetJ
  rw [Bool.and_self, List.all_eq_true]
  intro x hx
  simpa using hx

theorem regSpecPass_refl (d : JVal) : regSpecPass d d = true := by
  simp only [regSpecPass]
  rw [sameSetStr_refl]
  simp only [Bool.true_and]
  rw [List.all_eq_true]
  intro n _
  simp

theorem fieldObjOrAbsent_destruct (d : JVal) (k : String)
    (h : fieldObjOrAbsent d k = true) :
    ∃ m, d = .obj m ∧
      (objLookup k m = none ∨ ∃ f, objLookup k m = some (.obj f)) := by
  cases d with
  | obj m =>
    refine ⟨m, rfl, ?_⟩
    simp only [fieldObjOrAbsent] at h
    cases hk : objLookup k m with
    | none => exact Or.inl rfl
    | some v =>
      rw [hk] at h
      cases v with
      | obj f => exact Or.inr ⟨f, rfl⟩
      | null => simp [isObj] at h
      | bool x => simp [isObj] at h
      | num x => simp [isObj] at h
      | str x => simp [isObj] at h
      | arr x => simp [isObj] at h
  | null => simp [fieldObjOrAbsent] at h
  | bool x => simp [fieldObjOrAbsent] at h
  | num x => simp [fieldObjOrAbsent] at h
  | str x => simp [fieldObjOrAbsent] at h
  | arr x => simp [fieldObjOrAbsent] at h

theorem selfAccepts_sound (comparator : String) (d : JVal)
    (h : selfAccepts comparator d = true) :
    applyComparator comparator d d = .ok true := by
  unfold selfAccepts at h
  unfold applyComparator
  by_cases h1 : (comparator == "database_connection") = true
  · rw [if_pos h1] at h ⊢
    cases d with
    | obj m => simp [compareDatabaseConnection, pyGet]
    | null => simp [isObj] at h
    | bool x => simp [isObj] at h
    | num x => simp [isObj] at h
    | str x => simp [isObj] at h
    | arr x => simp [isObj] at h
  · rw [if_neg h1] at h ⊢
    by_cases h2 : (comparator == "dns_structure") = true
    · rw [if_pos h2] at h ⊢
      rw [dns_ok_iff]
      exact ⟨(Bool.and_eq_true_iff.mp h).1, (Bool.and_eq_true_iff.mp h).2⟩
    · rw [if_neg h2] at h ⊢
      by_cases h3 : (comparator == "registry_exists") = true
      · rw [if_pos h3] at h ⊢
        rw [registry_exists_eq d d h h, regSpecPass_refl]
      · rw [if_neg h3] at h ⊢
        by_cases h4 : (comparator == "http_status") = true
        · rw [if_pos h4] at h ⊢
          obtain ⟨m, hd, hr⟩ := fieldObjOrAbsent_destruct d "response" h
          subst hd
          rcases hr with hr | ⟨f, hr⟩
          · simp [compareHttpStatus, pyGet, hr]
          · simp [compareHttpStatus, pyGet, hr]
        · rw [if_neg h4] at h ⊢
          by_cases h5 : (comparator == "cluster_version") = true
          · rw [if_pos h5] at h ⊢
            obtain ⟨m, hd, hr⟩ := fieldObjOrAbsent_destruct d "info" h
            subst hd
            rcases hr with hr | ⟨f, hr⟩
            · simp [compareClusterVersion, pyGet, hr]
            · simp [compareClusterVersion, pyGet, hr]
          · rw [if_neg h5] at h ⊢
            by_cases h6 : (comparator == "analysis_results") = true
            · rw [if_pos h6] at h ⊢
              cases d with
              | arr l =>
                have hwf : ∀ e ∈ l, anaElemWF e = true := by
                  rw [← List.all_eq_true]
                  exact h
                rw [ana_eq l l hwf hwf, sameSetJ_refl]
              | null => simp at h
              | bool x => simp at h
              | num x => simp at h
              | str x => simp at h
              | obj x => simp at h
            · rw [if_neg h6]

theorem text_len_beq_zero_false (s : String) (h : s ≠ "") :
    (s.length == 0) = false := by
  rw [beq_eq_false_iff_ne]
  intro hc
  apply h
  cases hcc : s with
  | mk data =>
    rw [hcc] at hc
    simp [String.length] at hc
    simp [hc]

theorem nonEmptySpec_eq (fc : FileContent) (relPath : String) :
    nonEmptySpec fc relPath = checkNonEmpty fc relPath := by
  by_cases ht : fc.text = ""
  · simp [nonEmptySpec, checkNonEmpty, ht, String.length]
  · have hlen := text_len_beq_zero_false fc.text ht
    have hne : (fc.text != "") = true := by simpa using ht
    simp [nonEmptySpec, checkNonEmpty, hlen, hne]

theorem selfOK_verdict (rules : RuleSet) (p : String) (fc : FileContent)
    (h : selfOK rules p fc = true) :
    isDiffVerdict (compareFileV rules fc fc p) = false := by
  unfold selfOK at h
  cases hm : getComparisonMode rules p with
  | exact =>
    simp only [compareFileV, hm]
    simp [compareExact, isDiffVerdict]
  | structural =>
    rw [hm] at h
    cases hj : fc.json with
    | none => rw [hj] at h; simp at h
    | some d =>
      rw [hj] at h
      have hok : compareStructural fc fc (getStructuralComparator rules p) = .ok true := by
        unfold compareStructural
        rw [hj]
        exact selfAccepts_sound _ d h
      simp only [compareFileV, hm]
      rw [hok]
      rfl
  | nonEmpty =>
    rw [hm] at h
    rw [nonEmptySpec_eq] at h
    simp only [compareFileV, hm]
    rw [if_pos h]
    rfl

theorem contentAt_mem (B : Bundle) (p : String) (hp : p ∈ bundlePaths B) :
    (p, contentAt B p) ∈ B := by
  induction B with
  | nil => simp [bundlePaths] at hp
  | cons q rest ih =>
    obtain ⟨k, fc⟩ := q
    by_cases hk : k = p
    · subst hk
      have : contentAt ((k, fc) :: rest) k = fc := by simp [contentAt]
      rw [this]
      exact List.mem_cons_self _ _
    · have hp' : p ∈ bundlePaths rest := by
        simp [bundlePaths] at hp
        rcases hp with h | h
        · exact absurd h.symm hk
        · simpa [bundlePaths] using h
      have : contentAt ((k, fc) :: rest) p = contentAt rest p := by
        simp [contentAt, hk]
      rw [this]
      exact List.mem_cons_of_mem _ (ih hp')

/-- C3 (amended): comparing a bundle against an identical copy of itself
yields zero missing files in either direction under any rule set, and
additionally zero `Different` verdicts (hence a passing run) provided
every file satisfies its own one-sided check: exact files always match
themselves, structural files must decode to a document their comparator
accepts against itself (any object for `database_connection`; the
current-side conditions for `dns_structure`; a well-formed images
document for `registry_exists`; an object whose `response`/`info` entry,
if present, is an object for `http_status`/`cluster_version`; a sequence
of well-formed records for `analysis_results`; anything for an
unrecognized comparator), and non-empty files must be non-empty and
valid JSON when suffixed `.json`. Without that proviso self-comparison
can fail (see the counterexample). -/
theorem claim_C3 (rules : RuleSet) (B : Bundle) :
    ((runCompare rules B B).files_missing_in_current = 0 ∧
      (runCompare rules B B).files_missing_in_baseline = 0) ∧
    ((∀ pfc ∈ B, selfOK rules pfc.1 pfc.2 = true) →
      ((runCompare rules B B).files_different = 0 ∧ runPass rules B B = true)) := by
  have hmiss : ((bundlePaths B).filter (fun p => !bundleHas B p)) = [] := by
    rw [List.filter_eq_nil_iff]
    intro p hp
    simp [bundleHas, hp]
  have h1 : (runCompare rules B B).files_missing_in_current = 0 := by
    rw [runCompare_files_missing_in_current, hmiss]
    rfl
  have h2 : (runCompare rules B B).files_missing_in_baseline = 0 := by
    rw [runCompare_files_missing_in_baseline, hmiss]
    rfl
  refine ⟨⟨h1, h2⟩, ?_⟩
  intro hself
  have hfd : (runCompare rules B B).files_different = 0 := by
    rw [runCompare_files_different]
    rw [List.countP_eq_zero]
    intro p hp
    have hpmem : p ∈ bundlePaths B := List.mem_of_mem_filter hp
    have hOK := hself (p, contentAt B p) (contentAt_mem B p hpmem)
    simp [selfOK_verdict rules p (contentAt B p) hOK]
  refine ⟨hfd, ?_⟩
  simp [runPass, hfd, h1]

/-- The claim C3 as frozen is false: a bundle holding one empty file,
compared against an identical copy of itself under the built-in default
rules, records a `non_empty` difference and the run fails. -/
theorem claim_C3_counterexample :
    (runCompare defaultRules [("a.txt", { text := "", json := none })]
        [("a.txt", { text := "", json := none })]).files_different = 1 ∧
      runPass defaultRules [("a.txt", { text := "", json := none })]
        [("a.txt", { text := "", json := none })] = false := by
  exact ⟨by decide, by decide⟩

/-- Closed instance discharging `claim_C3`'s hypotheses on a bundle with
one exact, one structural and one non-empty file. -/
theorem claim_C3_witness :
    (∀ pfc ∈ ([("version.yaml", { text := "v1", json := none }),
        ("dns/debug.json",
          { text := "j",
            json := some (.obj [("query", .obj [("kubernetes", .obj [("address", .str "10.0.0.1")])]),
                                ("kubeDNSService", .str "x"),
                                ("kubeDNSPods", .arr [.str "p1"])]) }),
        ("logs/a.txt", { text := "x", json := none })] : Bundle),
      selfOK defaultRules pfc.1 pfc.2 = true) ∧
      ((runCompare defaultRules
          [("version.yaml", { text := "v1", json := none }),
           ("dns/debug.json",
             { text := "j",
               json := some (.obj [("query", .obj [("kubernetes", .obj [("address", .str "10.0.0.1")])]),
                                   ("kubeDNSService", .str "x"),
                                   ("kubeDNSPods", .arr [.str "p1"])]) }),
           ("logs/a.txt", { text := "x", json := none })]
          [("version.yaml", { text := "v1", json := none }),
           ("dns/debug.json",
             { text := "j",
               json := some (.obj [("query", .obj [("kubernetes", .obj [("address", .str "10.0.0.1")])]),
                                   ("kubeDNSService", .str "x"),
                                   ("kubeDNSPods", .arr [.str "p1"])]) }),
           ("logs/a.txt", { text := "x", json := none })]).files_different = 0 ∧
        runPass defaultRules
          [("version.yaml", { text := "v1", json := none }),
           ("dns/debug.json",
             { text := "j",
               json := some (.obj [("query", .obj [("kubernetes", .obj [("address", .str "10.0.0.1")])]),
                                   ("kubeDNSService", .str "x"),
                                   ("kubeDNSPods", .arr [.str "p1"])]) }),
           ("logs/a.txt", { text := "x", json := none })]
          [("version.yaml", { text := "v1", json := none }),
           ("dns/debug.json",
             { text := "j",
               json := some (.obj [("query", .obj [("kubernetes", .obj [("address", .str "10.0.0.1")])]),
                                   ("kubeDNSService", .str "x"),
                                   ("kubeDNSPods", .arr [.str "p1"])]) }),
           ("logs/a.txt", { text := "x", json := none })] = true) := by
  exact ⟨by decide,
    (claim_C3 defaultRules
      [("version.yaml", { text := "v1", json := none }),
       ("dns/debug.json",
         { text := "j",
           json := some (.obj [("query", .obj [("kubernetes", .obj [("address", .str "10.0.0.1")])]),
                               ("kubeDNSService", .str "x"),
                               ("kubeDNSPods", .arr [.str "p1"])]) }),
       ("logs/a.txt", { text := "x", json := none })]).2 (by decide)⟩

/-- C4: the classifier gives `exact` iff some exact pattern matches (glob
or literal equality); an exact-tier miss with a structural match resolves
to `structural` tagged with the comparator of the first matching
structural entry in declared order; a miss in both tiers gives
`non_empty`. The classifier and comparator lookup are total functions of
the rule set and path, with no error case. -/
theorem claim_C4 (rules : RuleSet) (relPath : String) :
    (getComparisonMode rules relPath = .exact ↔
      ∃ pat ∈ rules.exact_match, fnmatchStr relPath pat = true ∨ relPath = pat) ∧
    (∀ (l1 : List (String × String)) (pat comp : String) (l2 : List (String × String)),
      rules.structural_compare = l1 ++ (pat, comp) :: l2 →
      (∀ pat' ∈ rules.exact_match, fnmatchStr relPath pat' = false ∧ relPath ≠ pat') →
      (∀ pc ∈ l1, fnmatchStr relPath pc.1 = false) →
      fnmatchStr relPath pat = true →
      getComparisonMode rules relPath = .structural ∧
        getStructuralComparator rules relPath = comp) ∧
    ((∀ pat ∈ rules.exact_match, fnmatchStr relPath pat = false ∧ relPath ≠ pat) →
      (∀ pc ∈ rules.structural_compare, fnmatchStr relPath pc.1 = false) →
      getComparisonMode rules relPath = .nonEmpty) := by
  refine ⟨?_, ?_, ?_⟩
  · unfold getComparisonMode
    by_cases hex : (rules.exact_match.any (fun pat => fnmatchStr relPath pat || relPath == pat)) = true
    · rw [if_pos hex]
      simp only [true_iff]
      rw [List.any_eq_true] at hex
      obtain ⟨pat, hmem, hp⟩ := hex
      refine ⟨pat, hmem, ?_⟩
      rcases Bool.or_eq_true_iff.mp hp with h | h
      · exact Or.inl h
      · exact Or.inr (by simpa using h)
    · rw [if_neg hex]
      constructor
      · intro h
        split at h <;> simp_all
      · intro ⟨pat, hmem, hp⟩
        exact absurd (List.any_eq_true.mpr ⟨pat, hmem, by
          rcases hp with h | h
          · simp [h]
          · simp [h]⟩) hex
  · intro l1 pat comp l2 hsc hex hl1 hpat
    have hexany : rules.exact_match.any (fun pat => fnmatchStr relPath pat || relPath == pat) = false := by
      rw [List.any_eq_false]
      intro x hx
      rcases hex x hx with ⟨h1, h2⟩
      simp [h1, h2]
    have hscany : rules.structural_compare.any (fun pc => fnmatchStr relPath pc.1) = true := by
      rw [List.any_eq_true]
      exact ⟨(pat, comp), by rw [hsc]; exact List.mem_append_right l1 (List.mem_cons_self _ _), hpat⟩
    constructor
    · simp [getComparisonMode, hexany, hscany]
    · unfold getStructuralComparator
      rw [hsc, find?_first (fun pc => fnmatchStr relPath pc.1) l1 (pat, comp) l2 hl1 hpat]
  · intro hex hsc
    have hexany : rules.exact_match.any (fun pat => fnmatchStr relPath pat || relPath == pat) = false := by
      rw [List.any_eq_false]
      intro x hx
      rcases hex x hx with ⟨h1, h2⟩
      simp [h1, h2]
    have hscany : rules.structural_compare.any (fun pc => fnmatchStr relPath pc.1) = false := by
      rw [List.any_eq_false]
      intro x hx
      simp [hsc x hx]
    simp [getComparisonMode, hexany, hscany]

/-- Closed instance discharging `claim_C4`'s hypotheses: a path matching
both tiers resolves to `exact`, and the structural tier picks the first
matching entry's comparator. -/
theorem claim_C4_witness :
    (getComparisonMode defaultRules "version.yaml" = .exact ↔
      ∃ pat ∈ defaultRules.exact_match, fnmatchStr "version.yaml" pat = true ∨ "version.yaml" = pat) ∧
      (getComparisonMode defaultRules "mysql/conn.json" = .structural ∧
        getStructuralComparator defaultRules "mysql/conn.json" = "database_connection") ∧
      getComparisonMode defaultRules "cluster-resources/pods.json" = .nonEmpty := by
  refine ⟨(claim_C4 defaultRules "version.yaml").1, ?_, ?_⟩
  · exact (claim_C4 defaultRules "mysql/conn.json").2.1
      [("postgres/*.json", "database_connection")] "mysql/*.json" "database_connection"
      [("mssql/*.json", "database_connection"),
       ("redis/*.json", "database_connection"),
       ("dns/debug.json", "dns_structure"),
       ("registry/*.json", "registry_exists"),
       ("http*.json", "http_status")]
      (by decide) (by decide) (by decide) (by decide)
  · exact (claim_C4 defaultRules "cluster-resources/pods.json").2.2
      (by decide) (by decide)

/-- C2 (amended): a JSON decode failure on either side of a structural
file yields the ordinary `Different(structural)` verdict — the decode
handler returns `False` rather than raising — and the named comparator is
never consulted (the result is the same for every comparator name). -/
theorem claim_C2 (rules : RuleSet) (b c : FileContent) (relPath : String)
    (hmode : getComparisonMode rules relPath = .structural)
    (hj : b.json = none ∨ c.json = none) :
    compareFileV rules b c relPath =
        .diff "structural"
          ("Structural comparison failed (" ++ getStructuralComparator rules relPath ++ ")") ∧
      ∀ comparator, compareStructural b c comparator = .ok false := by
  have hall : ∀ comparator, compareStructural b c comparator = .ok false := by
    intro comparator
    unfold compareStructural
    rcases hj with h | h
    · rw [h]
    · cases hb : b.json with
      | none => rfl
      | some bd => rw [h]
  refine ⟨?_, hall⟩
  simp only [compareFileV, hmode]
  rw [hall (getStructuralComparator rules relPath)]

/-- The claim C2 as frozen is false: at a structural file whose baseline
side fails to decode, the recorded verdict is `Different(structural)`,
not a `ComparisonError`. -/
theorem claim_C2_counterexample :
    isErrorVerdict
        (compareFileV defaultRules { text := "not json", json := none }
          { text := "x", json := some (.obj []) } "dns/debug.json") = false ∧
      compareFileV defaultRules { text := "not json", json := none }
          { text := "x", json := some (.obj []) } "dns/debug.json" =
        .diff "structural" "Structural comparison failed (dns_structure)" := by
  exact ⟨by decide, by decide⟩

/-- Closed instance discharging `claim_C2`'s hypotheses. -/
theorem claim_C2_witness :
    getComparisonMode defaultRules "dns/debug.json" = .structural ∧
      (compareFileV defaultRules { text := "not json", json := none }
            { text := "x", json := some (.obj []) } "dns/debug.json" =
          .diff "structural"
            ("Structural comparison failed (" ++
              getStructuralComparator defaultRules "dns/debug.json" ++ ")") ∧
        ∀ comparator,
          compareStructural { text := "not json", json := none }
              { text := "x", json := some (.obj []) } comparator = .ok false) := by
  exact ⟨by decide,
    claim_C2 defaultRules { text := "not json", json := none }
      { text := "x", json := some (.obj []) } "dns/debug.json" (by decide) (Or.inl rfl)⟩

/-- C8: a structural file whose two sides both decode, dispatched to a
comparator name outside the six recognized ones, records a structural
match — never a difference or error. -/
theorem claim_C8 (rules : RuleSet) (b c : FileContent) (relPath : String)
    (hmode : getComparisonMode rules relPath = .structural)
    (hcmp : getStructuralComparator rules relPath ∉
      (["database_connection", "dns_structure", "registry_exists",
        "http_status", "cluster_version", "analysis_results"] : List String))
    (hb : b.json.isSome = true) (hc : c.json.isSome = true) :
    compareFileV rules b c relPath = .structMatch := by
  obtain ⟨bd, hbd⟩ := Option.isSome_iff_exists.mp hb
  obtain ⟨cd, hcd⟩ := Option.isSome_iff_exists.mp hc
  simp only [List.mem_cons, List.not_mem_nil, or_false, not_or] at hcmp
  obtain ⟨h1, h2, h3, h4, h5, h6⟩ := hcmp
  have hok : compareStructural b c (getStructuralComparator rules relPath) = .ok true := by
    simp [compareStructural, hbd, hcd, applyComparator, h1, h2, h3, h4, h5, h6]
  simp only [compareFileV, hmode]
  rw [hok]

/-- Closed instance discharging `claim_C8`'s hypotheses: a rule set
naming a not-yet-implemented comparator produces a structural match. -/
theorem claim_C8_witness :
    getComparisonMode { exact_match := [], structural_compare := [("*.json", "custom_check")] }
        "a.json" = .structural ∧
      compareFileV { exact_match := [], structural_compare := [("*.json", "custom_check")] }
          { text := "null", json := some .null } { text := "null", json := some .null }
          "a.json" = .structMatch := by
  exact ⟨by decide,
    claim_C8 { exact_match := [], structural_compare := [("*.json", "custom_check")] }
      { text := "null", json := some .null } { text := "null", json := some .null }
      "a.json" (by decide) (by decide) (by decide) (by decide)⟩

/-- C9: for a file classified `non_empty` the verdict never depends on
the baseline side, and it passes exactly when the current file is
non-empty and, when its extension is `.json`, decodes as JSON (the file's
existence is given: common files exist in both extracted trees). -/
theorem claim_C9 (rules : RuleSet) (b b' c : FileContent) (relPath : String)
    (hmode : getComparisonMode rules relPath = .nonEmpty) :
    compareFileV rules b c relPath = compareFileV rules b' c relPath ∧
      (compareFileV rules b c relPath = .nonEmptyOk ↔
        (c.text ≠ "" ∧ (pathSuffix relPath = ".json" → c.json.isSome = true))) := by
  constructor
  · simp only [compareFileV, hmode]
  · simp only [compareFileV, hmode]
    rw [← checkNonEmpty_iff c relPath]
    by_cases h : checkNonEmpty c relPath = true
    · simp [h]
    · simp [h]

/-- Closed instance discharging `claim_C9`'s hypotheses: an empty or
invalid baseline never matters, the current side alone decides. -/
theorem claim_C9_witness :
    getComparisonMode defaultRules "logs/app.txt" = .nonEmpty ∧
      (compareFileV defaultRules { text := "", json := none }
            { text := "data", json := none } "logs/app.txt" =
          compareFileV defaultRules { text := "x", json := some .null }
            { text := "data", json := none } "logs/app.txt" ∧
        (compareFileV defaultRules { text := "", json := none }
              { text := "data", json := none } "logs/app.txt" = .nonEmptyOk ↔
          (("data" : String) ≠ "" ∧
            (pathSuffix "logs/app.txt" = ".json" → (Option.isSome (none : Option JVal)) = true)))) := by
  exact ⟨by decide,
    claim_C9 defaultRules { text := "", json := none } { text := "x", json := some .null }
      { text := "data", json := none } "logs/app.txt" (by decide)⟩

/-- C10: after every completed run, each processed common file received
exactly one verdict (`files_compared` is the sum of the three match
counters and the difference counter), and each recorded list's length
equals its counter. -/
theorem claim_C10 (rules : RuleSet) (baseline current : Bundle) :
    (runCompare rules baseline current).files_compared =
        (runCompare rules baseline current).exact_matches +
          (runCompare rules baseline current).structural_matches +
          (runCompare rules baseline current).non_empty_checks +
          (runCompare rules baseline current).files_different ∧
      (runCompare rules baseline current).differences.length =
        (runCompare rules baseline current).files_different ∧
      (runCompare rules baseline current).missing_in_current.length =
        (runCompare rules baseline current).files_missing_in_current ∧
      (runCompare rules baseline current).missing_in_baseline.length =
        (runCompare rules baseline current).files_missing_in_baseline := by
  have h := resultsInv_holds rules baseline current
  unfold resultsInv at h
  exact h

end CompareBundles
